import Mathlib

/-!
Verification development for the military-asset-management-system repository.

The repository contains two backend variants operating on the same domain:
a Prisma/PostgreSQL variant (src/backend/routes/transfers.js,
src/backend/routes/assignments.js, and the purchases router in
src/unnamed/part_010) and a MongoDB variant (src/unnamed/part_007 transfers,
src/unnamed/part_011 purchases, src/unnamed/part_014 assignments,
src/backend/routes/dashboard.js metrics).  Both are embedded below.

Modelling conventions, applied uniformly:
- Every handler is modelled as invoked by an admin actor: in the source,
  every role / base-authorization branch is short-circuited by
  `req.user.role === 'admin'`, so those branches are outside the model.
- `express-validator` guards that run before a handler body (quantity must
  be a positive integer, unitPrice a positive float, from != to) are part of
  the route definition and are modelled as the leading validation checks.
- Database ids are Nat, dates/timestamps are Nat, money is Int (the
  scenarios of the spec use integer prices; JS number multiplication is
  exact on them).  Balance quantities are Int because the source applies
  unchecked decrements that can go below zero.
- Each HTTP error response is mapped to one ApiError constructor:
  400 from a validator or the same-base check -> validationError;
  400 "Insufficient ..." -> insufficientBalance;
  400 state-machine messages ("Transfer is already X", "Transfer must be
  approved before completion", "Assignment is not active", "Cannot cancel a
  transfer that is already X", "Pending transfer not found or already
  actioned") -> invalidState;
  404 -> notFound; 500 -> serverError.
- Handlers run inside a transaction (prisma.$transaction /
  session.withTransaction): a failing call returns an error and leaves the
  state unchanged, which the `Except` embedding renders by returning no new
  state on error.
- Prisma `update({ where: { id } })` and Mongo `updateOne` touch the first
  (unique-keyed) matching row, modelled by `updateFirst`; Prisma
  `updateMany` touches every matching row, modelled by a `List.map`.
-/

namespace MAMS

inductive ApiError where
  | validationError
  | insufficientBalance
  | invalidState
  | notFound
  | serverError
deriving DecidableEq, Repr

inductive TransferStatus where
  | pending
  | approved
  | completed
  | cancelled
  | rejected
deriving DecidableEq, Repr

inductive AssignmentStatus where
  | active
  | returned
deriving DecidableEq, Repr

/-- Replace the first element satisfying `p` by its image under `f`,
modelling a single-row database update (`updateOne`, or a Prisma `update`
on a unique key). -/
def updateFirst (p : α → Bool) (f : α → α) : List α → List α
  | [] => []
  | x :: xs => if p x then f x :: xs else x :: updateFirst p f xs

namespace Pr

/-- One row of the Prisma `asset` table as the route handlers read and
write it: a per-(base, equipment type) stock row carrying the mutable
`quantity` and `closing_balance` columns. -/
structure Asset where
  id : Nat
  baseId : Nat
  equipmentTypeId : Nat
  quantity : Int
  closingBalance : Int
deriving DecidableEq, Repr

structure Transfer where
  id : Nat
  fromBaseId : Nat
  toBaseId : Nat
  equipmentTypeId : Nat
  quantity : Int
  status : TransferStatus
  approvedById : Option Nat
  approvedAt : Option Nat
deriving DecidableEq, Repr

structure Assignment where
  id : Nat
  assetId : Nat
  quantity : Int
  assignedTo : String
  status : AssignmentStatus
deriving DecidableEq, Repr

structure Purchase where
  id : Nat
  baseId : Nat
  equipmentTypeId : Nat
  quantity : Int
  unitPrice : Int
  totalAmount : Int
  supplier : String
deriving DecidableEq, Repr

structure Expenditure where
  id : Nat
  assetId : Nat
  quantity : Int
  reason : String
deriving DecidableEq, Repr

/-- The mutable store the Prisma route handlers touch.  `nextId` stands in
for the database id generator. -/
structure Db where
  assets : List Asset
  transfers : List Transfer
  assignments : List Assignment
  purchases : List Purchase
  expenditures : List Expenditure
  nextId : Nat
deriving DecidableEq, Repr

/-- Whether an asset row is keyed by `(b, e)`. -/
def pairKey (b e : Nat) (a : Asset) : Bool :=
  a.baseId == b && a.equipmentTypeId == e

/-- `prisma.asset.findFirst({ where: { base_id, equipment_type_id } })`. -/
def findAsset (db : Db) (b e : Nat) : Option Asset :=
  db.assets.find? (pairKey b e)

/-- The quantity of the first asset row keyed by `(b, e)`, when one
exists: what the source-stock checks of the handlers read. -/
def balanceOf (db : Db) (b e : Nat) : Option Int :=
  (findAsset db b e).map fun a => a.quantity

/-- `prisma.asset.findUnique({ where: { id } })`. -/
def findAssetById (db : Db) (assetId : Nat) : Option Asset :=
  db.assets.find? fun a => a.id == assetId

/-- The `quantity` column of the asset row `assetId`, when it exists. -/
def assetQty (db : Db) (assetId : Nat) : Option Int :=
  (findAssetById db assetId).map fun a => a.quantity

/-- The `closing_balance` column of the asset row `assetId`, when it
exists. -/
def assetClosing (db : Db) (assetId : Nat) : Option Int :=
  (findAssetById db assetId).map fun a => a.closingBalance

def findTransfer (db : Db) (tid : Nat) : Option Transfer :=
  db.transfers.find? fun t => t.id == tid

def findAssignment (db : Db) (gid : Nat) : Option Assignment :=
  db.assignments.find? fun g => g.id == gid

/-- `prisma.asset.updateMany({ where: { base_id, equipment_type_id },
data: { quantity: { increment: dq }, closing_balance: { increment: dcb } } })`:
every row matching the pair is shifted; no row is created when none match. -/
def adjustAssets (assets : List Asset) (b e : Nat) (dq dcb : Int) : List Asset :=
  assets.map fun a =>
    if pairKey b e a then
      { a with quantity := a.quantity + dq, closingBalance := a.closingBalance + dcb }
    else a

/-- Sum of the `quantity` column over the rows of `l` keyed by `(b, e)`. -/
def pairQty (l : List Asset) (b e : Nat) : Int :=
  ((l.filter (pairKey b e)).map fun a => a.quantity).sum

/-- Number of rows of `l` keyed by `(b, e)`. -/
def pairRows (l : List Asset) (b e : Nat) : Nat :=
  (l.filter (pairKey b e)).length

/-- Sum of the `quantity` column over the rows keyed by `(b, e)`: the
spec-level Balance of that pair (0 when no row exists). -/
def quantityAt (db : Db) (b e : Nat) : Int :=
  pairQty db.assets b e

/-- Number of asset rows keyed by `(b, e)`. -/
def rowsAt (db : Db) (b e : Nat) : Nat :=
  pairRows db.assets b e

/-- Status of the transfer `tid`, when it exists. -/
def statusOf (db : Db) (tid : Nat) : Option TransferStatus :=
  (findTransfer db tid).map fun t => t.status

/-- POST /api/transfers (src/backend/routes/transfers.js lines 13-71):
validators reject a non-positive quantity; the handler rejects
`from_base_id === to_base_id`; an absent or insufficient source asset row
yields the "Insufficient assets at the source base." 400; otherwise a
`pending` Transfer row is inserted and no balance is mutated. -/
def createTransfer (db : Db) (fromBaseId toBaseId equipmentTypeId : Nat)
    (quantity : Int) : Except ApiError Db :=
  if quantity ≤ 0 then .error .validationError
  else if fromBaseId == toBaseId then .error .validationError
  else
    match findAsset db fromBaseId equipmentTypeId with
    | none => .error .insufficientBalance
    | some sourceAsset =>
      if sourceAsset.quantity < quantity then .error .insufficientBalance
      else .ok { db with
        transfers := db.transfers ++
          [{ id := db.nextId, fromBaseId := fromBaseId, toBaseId := toBaseId,
             equipmentTypeId := equipmentTypeId, quantity := quantity,
             status := .pending, approvedById := none, approvedAt := none }],
        nextId := db.nextId + 1 }

/-- PUT /api/transfers/:id/approve (src/backend/routes/transfers.js lines
127-161): 404 when absent, 400 when not pending; on success only the
transfer row changes: status `approved`, approver id and timestamp. -/
def approveTransfer (db : Db) (tid approverId now : Nat) : Except ApiError Db :=
  match findTransfer db tid with
  | none => .error .notFound
  | some t =>
    if t.status ≠ .pending then .error .invalidState
    else .ok { db with
      transfers := updateFirst (fun u => u.id == tid)
        (fun u => { u with status := .approved, approvedById := some approverId,
                           approvedAt := some now }) db.transfers }

/-- PUT /api/transfers/:id/complete (src/backend/routes/transfers.js lines
167-215): 404 when absent, 400 when not `approved`; otherwise, in one
transaction, `updateMany` decrements quantity and closing_balance on every
source-pair row (no sufficiency re-check, no row created), `updateMany`
increments every destination-pair row (no row created when none exists),
and the transfer status becomes `completed`. -/
def completeTransfer (db : Db) (tid : Nat) : Except ApiError Db :=
  match findTransfer db tid with
  | none => .error .notFound
  | some t =>
    if t.status ≠ .approved then .error .invalidState
    else
      let afterSource := adjustAssets db.assets t.fromBaseId t.equipmentTypeId
        (-t.quantity) (-t.quantity)
      let afterDest := adjustAssets afterSource t.toBaseId t.equipmentTypeId
        t.quantity t.quantity
      .ok { db with
        assets := afterDest,
        transfers := updateFirst (fun u => u.id == tid)
          (fun u => { u with status := .completed }) db.transfers }

/-- PUT /api/transfers/:id/cancel (src/backend/routes/transfers.js lines
221-256): 404 when absent; 400 only when the status is already `completed`
or `cancelled` — any other status, `rejected` included, is cancellable; on
success only the transfer status changes. -/
def cancelTransfer (db : Db) (tid : Nat) : Except ApiError Db :=
  match findTransfer db tid with
  | none => .error .notFound
  | some t =>
    if t.status == .completed || t.status == .cancelled then .error .invalidState
    else .ok { db with
      transfers := updateFirst (fun u => u.id == tid)
        (fun u => { u with status := .cancelled }) db.transfers }

/-- POST /api/assignments (src/backend/routes/assignments.js lines 15-73):
validators reject a non-positive quantity; 404 when the asset row is
absent; 400 "Insufficient quantity available." when `asset.quantity <
quantity`; otherwise the asset `quantity` column is decremented and an
`active` Assignment row is inserted. -/
def createAssignment (db : Db) (assetId : Nat) (quantity : Int)
    (assignedTo : String) : Except ApiError Db :=
  if quantity ≤ 0 then .error .validationError
  else
    match findAssetById db assetId with
    | none => .error .notFound
    | some asset =>
      if asset.quantity < quantity then .error .insufficientBalance
      else .ok { db with
        assets := updateFirst (fun x => x.id == assetId)
          (fun x => { x with quantity := x.quantity - quantity }) db.assets,
        assignments := db.assignments ++
          [{ id := db.nextId, assetId := assetId, quantity := quantity,
             assignedTo := assignedTo, status := .active }],
        nextId := db.nextId + 1 }

/-- PUT /api/assignments/:id/return (src/backend/routes/assignments.js
lines 111-145): 404 when absent, 400 "Assignment is not active." unless
status is `active`; on success the asset `quantity` column is incremented
by the assignment quantity and the assignment becomes `returned`.  A
missing asset row would make the transactional update throw (500). -/
def returnAssignment (db : Db) (gid : Nat) : Except ApiError Db :=
  match findAssignment db gid with
  | none => .error .notFound
  | some g =>
    if g.status ≠ .active then .error .invalidState
    else
      match findAssetById db g.assetId with
      | none => .error .serverError
      | some _ => .ok { db with
          assets := updateFirst (fun x => x.id == g.assetId)
            (fun x => { x with quantity := x.quantity + g.quantity }) db.assets,
          assignments := updateFirst (fun u => u.id == gid)
            (fun u => { u with status := .returned }) db.assignments }

/-- POST /api/assignments/expenditures (src/backend/routes/assignments.js
lines 152-207): validators reject a non-positive quantity; 404 when the
asset row is absent; the guard and the decrement both act on the
`closing_balance` column — "Insufficient closing balance for expenditure."
when `asset.closingBalance < quantity`, and on success only
`closing_balance` is decremented (the `quantity` column is untouched)
while an Expenditure row is inserted. -/
def recordExpenditure (db : Db) (assetId : Nat) (quantity : Int)
    (reason : String) : Except ApiError Db :=
  if quantity ≤ 0 then .error .validationError
  else
    match findAssetById db assetId with
    | none => .error .notFound
    | some asset =>
      if asset.closingBalance < quantity then .error .insufficientBalance
      else .ok { db with
        assets := updateFirst (fun x => x.id == assetId)
          (fun x => { x with closingBalance := x.closingBalance - quantity }) db.assets,
        expenditures := db.expenditures ++
          [{ id := db.nextId, assetId := assetId, quantity := quantity,
             reason := reason }],
        nextId := db.nextId + 1 }

/-- POST /api/purchases, Prisma variant (src/unnamed/part_010 lines
297-359): validators reject non-positive quantity or unit price; the
handler inserts a Purchase row with `totalAmount = quantity * unitPrice`
and runs `updateMany` incrementing quantity and closing_balance on the
rows matching the pair — when no row matches, nothing is created and the
increment is lost. -/
def recordPurchase (db : Db) (baseId equipmentTypeId : Nat)
    (quantity unitPrice : Int) (supplier : String) : Except ApiError Db :=
  if quantity ≤ 0 ∨ unitPrice ≤ 0 then .error .validationError
  else .ok { db with
    purchases := db.purchases ++
      [{ id := db.nextId, baseId := baseId, equipmentTypeId := equipmentTypeId,
         quantity := quantity, unitPrice := unitPrice,
         totalAmount := quantity * unitPrice, supplier := supplier }],
    assets := adjustAssets db.assets baseId equipmentTypeId quantity quantity,
    nextId := db.nextId + 1 }

/-- DELETE /api/purchases/:id (src/unnamed/part_010 lines 435-465): 404
when absent; otherwise the Purchase row alone is deleted — the handler
explicitly skips any asset/balance reversal. -/
def deletePurchase (db : Db) (pid : Nat) : Except ApiError Db :=
  match db.purchases.find? (fun p => p.id == pid) with
  | none => .error .notFound
  | some _ => .ok { db with purchases := db.purchases.filter fun p => p.id != pid }

/-- The central invariant of spec §3: every Balance quantity is
non-negative (stated on the `quantity` column, the spec-level Balance). -/
def BalancesNonNeg (db : Db) : Prop :=
  ∀ a ∈ db.assets, 0 ≤ a.quantity

/-- The state well-formedness the route layer maintains: non-negative
stock columns, and the non-negative quantities that validated inserts give
journal rows. -/
def Inv (db : Db) : Prop :=
  (∀ a ∈ db.assets, 0 ≤ a.quantity ∧ 0 ≤ a.closingBalance) ∧
  (∀ g ∈ db.assignments, 0 ≤ g.quantity) ∧
  (∀ t ∈ db.transfers, 0 ≤ t.quantity)

instance (db : Db) : Decidable (BalancesNonNeg db) := by
  unfold BalancesNonNeg; infer_instance

instance (db : Db) : Decidable (Inv db) := by
  unfold Inv; infer_instance

/-- One successful ledger operation of the Prisma route layer, as the
transition relation of the movement state machine. -/
inductive Step : Db → Db → Prop where
  | purchase (db db2 : Db) (b e : Nat) (q p : Int) (s : String)
      (h : recordPurchase db b e q p s = Except.ok db2) : Step db db2
  | transferRequest (db db2 : Db) (f t e : Nat) (q : Int)
      (h : createTransfer db f t e q = Except.ok db2) : Step db db2
  | approve (db db2 : Db) (tid aid now : Nat)
      (h : approveTransfer db tid aid now = Except.ok db2) : Step db db2
  | complete (db db2 : Db) (tid : Nat)
      (h : completeTransfer db tid = Except.ok db2) : Step db db2
  | assign (db db2 : Db) (aid : Nat) (q : Int) (who : String)
      (h : createAssignment db aid q who = Except.ok db2) : Step db db2
  | giveBack (db db2 : Db) (gid : Nat)
      (h : returnAssignment db gid = Except.ok db2) : Step db db2
  | expend (db db2 : Db) (aid : Nat) (q : Int) (r : String)
      (h : recordExpenditure db aid q r = Except.ok db2) : Step db db2

/-- States reachable from `db0` by successful ledger operations. -/
inductive ReachableFrom (db0 : Db) : Db → Prop where
  | refl : ReachableFrom db0 db0
  | tail (db1 db2 : Db) : ReachableFrom db0 db1 → Step db1 db2 →
      ReachableFrom db0 db2

end Pr

/-- Unwrap a successful result, with a fallback for the error case. -/
def getOk (r : Except ApiError α) (d : α) : α :=
  match r with
  | .ok x => x
  | .error _ => d

namespace Mg

/-- A document of the Mongo `assets` collection, as the route handlers use
it: carries a single mutable `quantity` field; `openingBalance` exists only
when a purchase upsert created the document. -/
structure Asset where
  id : Nat
  baseId : Nat
  equipmentTypeId : Nat
  quantity : Int
  openingBalance : Option Int
deriving DecidableEq, Repr

structure Transfer where
  id : Nat
  fromBaseId : Nat
  toBaseId : Nat
  equipmentTypeId : Nat
  quantity : Int
  status : TransferStatus
  approvedById : Option Nat
  approvedAt : Option Nat
deriving DecidableEq, Repr

/-- A document of the Mongo `assignments` collection (src/unnamed/part_014):
it carries no quantity, and its status is the literal string the handler
writes. -/
structure Assignment where
  id : Nat
  assetId : Nat
  assignedTo : String
  status : String
deriving DecidableEq, Repr

structure Purchase where
  id : Nat
  baseId : Nat
  equipmentTypeId : Nat
  quantity : Int
  unitPrice : Int
  totalAmount : Int
  purchaseDate : Nat
deriving DecidableEq, Repr

/-- One quantity-bearing expenditure journal entry, as written by the
expenditure recorder into the journal store; GET /api/dashboard/metrics
never queries this collection. -/
structure Expenditure where
  id : Nat
  baseId : Nat
  quantity : Int
  expenditureDate : Nat
deriving DecidableEq, Repr

structure Db where
  assets : List Asset
  transfers : List Transfer
  assignments : List Assignment
  purchases : List Purchase
  expenditures : List Expenditure
  nextId : Nat
deriving DecidableEq, Repr

def matchesPair (b e : Nat) (a : Asset) : Bool :=
  a.baseId == b && a.equipmentTypeId == e

/-- `db.collection(assets).findOne({ base_id, equipment_type_id })`. -/
def findAsset (assets : List Asset) (b e : Nat) : Option Asset :=
  assets.find? (matchesPair b e)

/-- Sum of the `quantity` field over the documents of `l` keyed by
`(b, e)`. -/
def pairQty (l : List Asset) (b e : Nat) : Int :=
  ((l.filter (matchesPair b e)).map fun a => a.quantity).sum

/-- Sum of the `quantity` field over the documents keyed by `(b, e)`. -/
def quantityAt (db : Db) (b e : Nat) : Int :=
  pairQty db.assets b e

def findTransferById (db : Db) (tid : Nat) : Option Transfer :=
  db.transfers.find? fun t => t.id == tid

/-- Status of the transfer document `tid`, when it exists. -/
def statusOf (db : Db) (tid : Nat) : Option TransferStatus :=
  (findTransferById db tid).map fun t => t.status

/-- POST /api/transfers/request (src/unnamed/part_007 lines 14-78): a
non-positive quantity fails validation, equal bases are rejected, an
absent or insufficient source asset document aborts the transaction with
the "Insufficient assets at the source base." 400; otherwise a `pending`
transfer document is inserted and no balance is mutated. -/
def createTransfer (db : Db) (fromBaseId toBaseId equipmentTypeId : Nat)
    (quantity : Int) : Except ApiError Db :=
  if quantity ≤ 0 then .error .validationError
  else if fromBaseId == toBaseId then .error .validationError
  else
    match findAsset db.assets fromBaseId equipmentTypeId with
    | none => .error .insufficientBalance
    | some sourceAsset =>
      if sourceAsset.quantity < quantity then .error .insufficientBalance
      else .ok { db with
        transfers := db.transfers ++
          [{ id := db.nextId, fromBaseId := fromBaseId, toBaseId := toBaseId,
             equipmentTypeId := equipmentTypeId, quantity := quantity,
             status := .pending, approvedById := none, approvedAt := none }],
        nextId := db.nextId + 1 }

/-- PUT /api/transfers/:id/approve, Mongo variant (src/unnamed/part_007
lines 133-182).  Unlike the Prisma variant, this handler moves the stock
at approval time: it re-checks the source document quantity (throwing the
"Insufficient stock at source base." 400 if short), decrements the source
document, upserts `quantity + q` into the destination document — creating
it when absent — and only then marks the transfer `approved`.  A transfer
that is not pending fails the `findOne({ _id, status: pending })` lookup
("Pending transfer not found or already actioned.", a 400). -/
def approveTransfer (db : Db) (tid approverId now : Nat) : Except ApiError Db :=
  match db.transfers.find? (fun t => t.id == tid && t.status == TransferStatus.pending) with
  | none => .error .invalidState
  | some t =>
    match findAsset db.assets t.fromBaseId t.equipmentTypeId with
    | none => .error .insufficientBalance
    | some sourceAsset =>
      if sourceAsset.quantity < t.quantity then .error .insufficientBalance
      else
        let afterSource := updateFirst (fun x => x.id == sourceAsset.id)
          (fun x => { x with quantity := x.quantity - t.quantity }) db.assets
        let afterDest :=
          match findAsset afterSource t.toBaseId t.equipmentTypeId with
          | some _ => updateFirst (matchesPair t.toBaseId t.equipmentTypeId)
              (fun x => { x with quantity := x.quantity + t.quantity }) afterSource
          | none => afterSource ++
              [{ id := db.nextId, baseId := t.toBaseId,
                 equipmentTypeId := t.equipmentTypeId, quantity := t.quantity,
                 openingBalance := none }]
        .ok { db with
          assets := afterDest,
          transfers := updateFirst (fun u => u.id == tid)
            (fun u => { u with status := .approved, approvedById := some approverId,
                               approvedAt := some now }) db.transfers,
          nextId := db.nextId + 1 }

/-- PUT /api/transfers/:id/reject (src/unnamed/part_007 lines 187-212):
the lookup is `findOne({ _id, status: pending })`, so a transfer in any
other state — a second reject included — yields the 404 "Pending transfer
not found." (not an invalid-state 400); on success only the transfer
document changes. -/
def rejectTransfer (db : Db) (tid rejecterId now : Nat) : Except ApiError Db :=
  match db.transfers.find? (fun t => t.id == tid && t.status == TransferStatus.pending) with
  | none => .error .notFound
  | some _ => .ok { db with
      transfers := updateFirst (fun u => u.id == tid)
        (fun u => { u with status := .rejected, approvedById := some rejecterId,
                           approvedAt := some now }) db.transfers }

/-- POST /api/purchases, Mongo variant (src/unnamed/part_011 lines 16-88):
after validation it inserts a purchase document with `totalAmount =
quantity * unitPrice` and runs an upserting `updateOne` with
`$inc: { quantity }` on the pair — incrementing the first matching asset
document, or creating one (with `openingBalance: 0` from `$setOnInsert`)
when none exists. -/
def createPurchase (db : Db) (baseId equipmentTypeId : Nat)
    (quantity unitPrice : Int) (purchaseDate : Nat) : Except ApiError Db :=
  if quantity ≤ 0 ∨ unitPrice ≤ 0 then .error .validationError
  else
    let afterAssets :=
      match findAsset db.assets baseId equipmentTypeId with
      | some _ => updateFirst (matchesPair baseId equipmentTypeId)
          (fun x => { x with quantity := x.quantity + quantity }) db.assets
      | none => db.assets ++
          [{ id := db.nextId + 1, baseId := baseId,
             equipmentTypeId := equipmentTypeId, quantity := quantity,
             openingBalance := some 0 }]
    .ok { db with
      purchases := db.purchases ++
        [{ id := db.nextId, baseId := baseId, equipmentTypeId := equipmentTypeId,
           quantity := quantity, unitPrice := unitPrice,
           totalAmount := quantity * unitPrice, purchaseDate := purchaseDate }],
      assets := afterAssets,
      nextId := db.nextId + 2 }

/-- POST /api/assignments, Mongo variant (src/unnamed/part_014 lines
12-49): the request carries no quantity; after the `assignedTo` non-empty
validation the handler inserts an assignment document with the literal
status string "assigned" — it performs no balance lookup, check, or
mutation of any kind. -/
def createAssignment (db : Db) (assetId : Nat) (assignedTo : String) :
    Except ApiError Db :=
  if assignedTo == "" then .error .validationError
  else .ok { db with
    assignments := db.assignments ++
      [{ id := db.nextId, assetId := assetId, assignedTo := assignedTo,
         status := "assigned" }],
    nextId := db.nextId + 1 }

/-- The record GET /api/dashboard/metrics responds with. -/
structure Metrics where
  opening_balance : Int
  closing_balance : Int
  net_movement : Int
  purchases : Int
  transfers_in : Int
  transfers_out : Int
  assigned : Int
  expended : Int
deriving DecidableEq, Repr

/-- Date-range test for an always-present date field: each given bound
constrains it. -/
def dateOk (s e : Option Nat) (d : Nat) : Bool :=
  (match s with | some lo => lo ≤ d | none => true) &&
  (match e with | some hi => d ≤ hi | none => true)

/-- Date-range test for an optional date field under Mongo semantics: with
no bounds given the field is unconstrained, otherwise a missing field fails
the filter. -/
def optDateOk (s e : Option Nat) (d : Option Nat) : Bool :=
  if s.isNone && e.isNone then true
  else match d with
    | none => false
    | some x => dateOk s e x

/-- GET /api/dashboard/metrics (src/backend/routes/dashboard.js lines
13-97), for the base set the authorization prelude resolved:
`opening_balance` is `countDocuments` over the asset documents of the
authorized bases (a row count, not a balance); `purchases` sums purchase
quantities in range; the transfer terms sum transfers with status
`approved` whose `approvedAt` is in range; `assigned` and `expended` are
the hard-coded zeros of lines 74-75; `net_movement = purchases +
transfers_in - transfers_out` and `closing_balance = opening_balance +
net_movement`.  The expenditure journal is never queried. -/
def getMetrics (db : Db) (authorizedBaseIds : List Nat) (s e : Option Nat) :
    Metrics :=
  let opening : Int :=
    ((db.assets.filter fun a => authorizedBaseIds.contains a.baseId).length : Int)
  let purchases : Int :=
    ((db.purchases.filter fun p =>
        authorizedBaseIds.contains p.baseId && dateOk s e p.purchaseDate).map
      fun p => p.quantity).sum
  let tin : Int :=
    ((db.transfers.filter fun t =>
        authorizedBaseIds.contains t.toBaseId && t.status == TransferStatus.approved
          && optDateOk s e t.approvedAt).map
      fun t => t.quantity).sum
  let tout : Int :=
    ((db.transfers.filter fun t =>
        authorizedBaseIds.contains t.fromBaseId && t.status == TransferStatus.approved
          && optDateOk s e t.approvedAt).map
      fun t => t.quantity).sum
  let net := purchases + tin - tout
  { opening_balance := opening, closing_balance := opening + net,
    net_movement := net, purchases := purchases, transfers_in := tin,
    transfers_out := tout, assigned := 0, expended := 0 }

/-- Sum of expenditure journal quantities at authorized bases within the
date range.  This is the spec-side reading of the `expended` term of §4.6
("sums of journal quantities within the date range, scoped to authorized
bases"), written for comparison with what `getMetrics` returns. -/
def expendedInRangeSpec (db : Db) (authorizedBaseIds : List Nat)
    (s e : Option Nat) : Int :=
  ((db.expenditures.filter fun x =>
      authorizedBaseIds.contains x.baseId && dateOk s e x.expenditureDate).map
    fun x => x.quantity).sum

/-- Spec-side reading of `opening_balance` (§4.6: the Balance snapshot
before the date range, obtained by "replaying the journal backward from
current Balance"): the current total quantity at the authorized bases,
minus the in-range inflows and plus the in-range outflows that the spec
formula recognises. -/
def openingBalanceSpec (db : Db) (authorizedBaseIds : List Nat)
    (s e : Option Nat) : Int :=
  ((db.assets.filter fun a => authorizedBaseIds.contains a.baseId).map
      fun a => a.quantity).sum
    - (getMetrics db authorizedBaseIds s e).purchases
    - (getMetrics db authorizedBaseIds s e).transfers_in
    + (getMetrics db authorizedBaseIds s e).transfers_out
    + expendedInRangeSpec db authorizedBaseIds s e

end Mg

/-!
Concrete states used by the counterexamples and witnesses below.  Each is
either a literal store or the result of running the modelled handlers on
one. -/

/-- Two bases, one equipment type; base 1 holds 100 units. -/
def c1Start : Pr.Db :=
  { assets := [⟨1, 1, 1, 100, 100⟩, ⟨2, 2, 1, 0, 0⟩], transfers := [],
    assignments := [], purchases := [], expenditures := [], nextId := 10 }

/-- After requesting a 30-unit transfer from base 1 to base 2. -/
def c1Db1 : Pr.Db := getOk (Pr.createTransfer c1Start 1 2 1 30) c1Start

/-- After approving that transfer. -/
def c1Db2 : Pr.Db := getOk (Pr.approveTransfer c1Db1 10 99 0) c1Start

/-- After assigning all 100 units of asset 1 away. -/
def c1Db3 : Pr.Db := getOk (Pr.createAssignment c1Db2 1 100 "Pvt. Jones") c1Start

/-- After completing the approved transfer against the now-empty stock. -/
def c1Db4 : Pr.Db := getOk (Pr.completeTransfer c1Db3 10) c1Start

/-- An approved 30-unit transfer whose source row has quantity 0 and whose
destination pair has no row at all. -/
def c2Db : Pr.Db :=
  { assets := [⟨1, 1, 1, 0, 0⟩],
    transfers := [⟨5, 1, 2, 1, 30, .approved, some 9, some 3⟩],
    assignments := [], purchases := [], expenditures := [], nextId := 20 }

def c2Bad : Pr.Db := getOk (Pr.completeTransfer c2Db 5) c2Db

/-- Mongo store with 100 units at base 1 and a pending 30-unit transfer to
base 2. -/
def c3MDb : Mg.Db :=
  { assets := [⟨1, 1, 1, 100, none⟩],
    transfers := [⟨7, 1, 2, 1, 30, .pending, none, none⟩],
    assignments := [], purchases := [], expenditures := [], nextId := 30 }

def c3MDb2 : Mg.Db := getOk (Mg.approveTransfer c3MDb 7 9 5) c3MDb

/-- Scenario B start: Balance(base 1) = 100, a row with 0 at base 2. -/
def sbDb0 : Pr.Db :=
  { assets := [⟨1, 1, 1, 100, 100⟩, ⟨2, 2, 1, 0, 0⟩], transfers := [],
    assignments := [], purchases := [], expenditures := [], nextId := 40 }

def sbDb1 : Pr.Db := getOk (Pr.createTransfer sbDb0 1 2 1 30) sbDb0

def sbDb2 : Pr.Db := getOk (Pr.approveTransfer sbDb1 40 9 1) sbDb0

def sbDb3 : Pr.Db := getOk (Pr.completeTransfer sbDb2 40) sbDb0

/-- A transfer already in the terminal `rejected` state. -/
def c4Db : Pr.Db :=
  { assets := [⟨1, 1, 1, 50, 50⟩],
    transfers := [⟨3, 1, 2, 1, 10, .rejected, none, none⟩],
    assignments := [], purchases := [], expenditures := [], nextId := 50 }

def c4Db2 : Pr.Db := getOk (Pr.cancelTransfer c4Db 3) c4Db

/-- Mongo store with one 100-unit asset document at base 1 and one 5-unit
expenditure journal entry dated inside the queried range. -/
def c5MDb : Mg.Db :=
  { assets := [⟨1, 1, 1, 100, none⟩], transfers := [], assignments := [],
    purchases := [], expenditures := [⟨2, 1, 5, 10⟩], nextId := 60 }

/-- A store holding no asset row at all for the purchased pair. -/
def c6Db : Pr.Db :=
  { assets := [], transfers := [], assignments := [], purchases := [],
    expenditures := [], nextId := 70 }

def c6Db2 : Pr.Db := getOk (Pr.recordPurchase c6Db 1 1 100 50 "Acme") c6Db

/-- Scenario A start in the Mongo variant: no asset document yet. -/
def saMDb : Mg.Db :=
  { assets := [], transfers := [], assignments := [], purchases := [],
    expenditures := [], nextId := 80 }

def saMDb2 : Mg.Db := getOk (Mg.createPurchase saMDb 1 1 100 50 0) saMDb

/-- Mongo store whose only asset document has quantity 0. -/
def c7MDb : Mg.Db :=
  { assets := [⟨1, 1, 1, 0, none⟩], transfers := [], assignments := [],
    purchases := [], expenditures := [], nextId := 90 }

def c7MDb2 : Mg.Db := getOk (Mg.createAssignment c7MDb 1 "Pvt. Jones") c7MDb

/-- Scenario C start: Balance(base 1) = 10. -/
def scDb0 : Pr.Db :=
  { assets := [⟨1, 1, 1, 10, 10⟩], transfers := [], assignments := [],
    purchases := [], expenditures := [], nextId := 100 }

def scDb1 : Pr.Db := getOk (Pr.createAssignment scDb0 1 10 "Pvt. Jones") scDb0

def scDb2 : Pr.Db := getOk (Pr.returnAssignment scDb1 100) scDb0

/-- An asset row whose quantity Balance is 5 but whose closing_balance
column is 10. -/
def c8Db : Pr.Db :=
  { assets := [⟨1, 1, 1, 5, 10⟩], transfers := [], assignments := [],
    purchases := [], expenditures := [], nextId := 110 }

def c8Db2 : Pr.Db := getOk (Pr.recordExpenditure c8Db 1 6 "training") c8Db

/-- Scenario D start: both stock columns at 5. -/
def sdDb : Pr.Db :=
  { assets := [⟨1, 1, 1, 5, 5⟩], transfers := [], assignments := [],
    purchases := [], expenditures := [], nextId := 120 }

/-- A store with one recorded purchase, for exercising deletion. -/
def c9Db : Pr.Db :=
  { assets := [⟨1, 1, 1, 7, 7⟩], transfers := [], assignments := [],
    purchases := [⟨4, 1, 1, 7, 3, 21, "Acme"⟩], expenditures := [],
    nextId := 130 }

def c9Db2 : Pr.Db := getOk (Pr.deletePurchase c9Db 4) c9Db

/-- A store whose only asset row sits at base 3, so the pair
(base 1, type 1) has no row. -/
def c10Db : Pr.Db :=
  { assets := [⟨1, 3, 1, 2, 2⟩], transfers := [], assignments := [],
    purchases := [], expenditures := [], nextId := 140 }

/-- Mongo store with no asset document for the source pair. -/
def c10MDb : Mg.Db :=
  { assets := [], transfers := [], assignments := [], purchases := [],
    expenditures := [], nextId := 150 }

/-!
General lemmas about the single-row update combinator, shared by the
claim theorems. -/

theorem mem_updateFirst {α : Type} {p : α → Bool} {f : α → α} :
    ∀ {l : List α} {x : α}, x ∈ updateFirst p f l →
      x ∈ l ∨ ∃ a, l.find? p = some a ∧ x = f a := by
  intro l
  induction l with
  | nil => intro x hx; simp [updateFirst] at hx
  | cons y ys ih =>
    intro x hx
    cases hp : p y with
    | true =>
      simp only [updateFirst, hp, if_pos] at hx
      rcases List.mem_cons.mp hx with h | h
      · exact Or.inr ⟨y, by simp [List.find?, hp], h⟩
      · exact Or.inl (List.mem_cons_of_mem _ h)
    | false =>
      simp only [updateFirst, hp, Bool.false_eq_true, if_neg, not_false_iff] at hx
      rcases List.mem_cons.mp hx with h | h
      · exact Or.inl (h ▸ List.mem_cons_self _ _)
      · rcases ih h with h2 | ⟨a, ha, hxa⟩
        · exact Or.inl (List.mem_cons_of_mem _ h2)
        · exact Or.inr ⟨a, by simp [List.find?, hp, ha], hxa⟩

theorem find?_updateFirst {α : Type} {p : α → Bool} {f : α → α}
    (hf : ∀ a, p (f a) = p a) :
    ∀ l : List α, (updateFirst p f l).find? p = (l.find? p).map f := by
  intro l
  induction l with
  | nil => simp [updateFirst]
  | cons y ys ih =>
    cases hp : p y with
    | true => simp [updateFirst, hp, List.find?, hf]
    | false => simp [updateFirst, hp, List.find?, ih]

theorem pairKey_adjusted (b e b2 e2 : Nat) (dq dcb : Int) (a : Pr.Asset) :
    Pr.pairKey b2 e2
      (if Pr.pairKey b e a then
        { a with quantity := a.quantity + dq, closingBalance := a.closingBalance + dcb }
       else a) = Pr.pairKey b2 e2 a := by
  by_cases h : Pr.pairKey b e a = true
  · simp only [h, if_pos]
    rfl
  · simp [h]

theorem pairKey_both (b e b2 e2 : Nat) (a : Pr.Asset)
    (h1 : Pr.pairKey b e a = true) (h2 : Pr.pairKey b2 e2 a = true) :
    b = b2 ∧ e = e2 := by
  unfold Pr.pairKey at h1 h2
  simp only [Bool.and_eq_true, beq_iff_eq] at h1 h2
  exact ⟨h1.1 ▸ h2.1, h1.2 ▸ h2.2⟩

theorem filter_adjust (b e b2 e2 : Nat) (dq dcb : Int) (l : List Pr.Asset) :
    (Pr.adjustAssets l b e dq dcb).filter (Pr.pairKey b2 e2) =
      Pr.adjustAssets (l.filter (Pr.pairKey b2 e2)) b e dq dcb := by
  unfold Pr.adjustAssets
  induction l with
  | nil => rfl
  | cons a l ih =>
    simp only [List.map_cons, List.filter_cons, pairKey_adjusted]
    by_cases hk2 : Pr.pairKey b2 e2 a = true
    · simp only [hk2, if_pos, List.map_cons, ih]
    · simp [hk2, ih]

theorem adjust_length (b e : Nat) (dq dcb : Int) (l : List Pr.Asset) :
    (Pr.adjustAssets l b e dq dcb).length = l.length := by
  unfold Pr.adjustAssets
  exact List.length_map l _

theorem adjust_sum_all_match (b e : Nat) (dq dcb : Int) :
    ∀ l : List Pr.Asset, (∀ x ∈ l, Pr.pairKey b e x = true) →
      ((Pr.adjustAssets l b e dq dcb).map fun a => a.quantity).sum =
        ((l.map fun a => a.quantity).sum) + (l.length : Int) * dq := by
  intro l
  induction l with
  | nil => intro _; simp [Pr.adjustAssets]
  | cons a l ih =>
    intro h
    have ha : Pr.pairKey b e a = true := h a (List.mem_cons_self _ _)
    have hl := ih fun x hx => h x (List.mem_cons_of_mem _ hx)
    unfold Pr.adjustAssets at *
    simp only [List.map_cons, ha, if_pos, List.sum_cons, hl, List.length_cons]
    push_cast
    ring

theorem adjust_none_match (b e : Nat) (dq dcb : Int) :
    ∀ l : List Pr.Asset, (∀ x ∈ l, Pr.pairKey b e x = false) →
      Pr.adjustAssets l b e dq dcb = l := by
  intro l
  induction l with
  | nil => intro _; rfl
  | cons a l ih =>
    intro h
    have ha : Pr.pairKey b e a = false := h a (List.mem_cons_self _ _)
    have hl := ih fun x hx => h x (List.mem_cons_of_mem _ hx)
    unfold Pr.adjustAssets at *
    simp [ha, hl]

theorem pairRows_adjust (b e b2 e2 : Nat) (dq dcb : Int) (l : List Pr.Asset) :
    Pr.pairRows (Pr.adjustAssets l b e dq dcb) b2 e2 = Pr.pairRows l b2 e2 := by
  unfold Pr.pairRows
  rw [filter_adjust, adjust_length]

theorem pairQty_adjust_same (b e : Nat) (dq dcb : Int) (l : List Pr.Asset) :
    Pr.pairQty (Pr.adjustAssets l b e dq dcb) b e =
      Pr.pairQty l b e + (Pr.pairRows l b e : Int) * dq := by
  unfold Pr.pairQty Pr.pairRows
  rw [filter_adjust]
  exact adjust_sum_all_match b e dq dcb _ fun x hx => (List.mem_filter.mp hx).2

theorem pairQty_adjust_ne (b e b2 e2 : Nat) (dq dcb : Int) (l : List Pr.Asset)
    (h : ¬(b = b2 ∧ e = e2)) :
    Pr.pairQty (Pr.adjustAssets l b e dq dcb) b2 e2 = Pr.pairQty l b2 e2 := by
  unfold Pr.pairQty
  rw [filter_adjust]
  rw [adjust_none_match b e dq dcb _ ?_]
  intro x hx
  have hx2 := (List.mem_filter.mp hx).2
  by_cases hx1 : Pr.pairKey b e x = true
  · exact absurd (pairKey_both b e b2 e2 x hx1 hx2) h
  · simpa using hx1

theorem mgPairQty_updateFirst (b e : Nat) (q : Int) :
    ∀ (l : List Mg.Asset) (a : Mg.Asset),
      l.find? (Mg.matchesPair b e) = some a →
      Mg.pairQty (updateFirst (Mg.matchesPair b e)
          (fun x => { x with quantity := x.quantity + q }) l) b e =
        Mg.pairQty l b e + q := by
  intro l
  induction l with
  | nil => intro a ha; simp [List.find?] at ha
  | cons y ys ih =>
    intro a ha
    cases hk : Mg.matchesPair b e y with
    | true =>
      simp only [updateFirst, hk, if_pos]
      have hk2 : Mg.matchesPair b e { y with quantity := y.quantity + q } = true := hk
      unfold Mg.pairQty
      simp only [List.filter_cons, hk, hk2, if_pos, List.map_cons, List.sum_cons]
      ring
    | false =>
      simp only [updateFirst, hk, Bool.false_eq_true, if_neg, not_false_iff]
      have ha2 : ys.find? (Mg.matchesPair b e) = some a := by
        simpa [List.find?, hk] using ha
      unfold Mg.pairQty at *
      simp only [List.filter_cons, hk, Bool.false_eq_true, if_neg, not_false_iff]
      exact ih a ha2

theorem mgPairQty_append (l : List Mg.Asset) (x : Mg.Asset) (b e : Nat)
    (h : Mg.matchesPair b e x = true) :
    Mg.pairQty (l ++ [x]) b e = Mg.pairQty l b e + x.quantity := by
  unfold Mg.pairQty
  simp [List.filter_append, h]

/-- Claim C9: DELETE /api/purchases/:id removes the Purchase row and only
that row: the asset table — hence every (base, equipment type) Balance —
and the other journal tables are exactly unchanged, so the stock added by
the deleted purchase stays counted. -/
theorem c9_delete_purchase_no_balance_effect (db db2 : Pr.Db) (pid : Nat)
    (h : Pr.deletePurchase db pid = Except.ok db2) :
    db2.assets = db.assets ∧
    (∀ b e, Pr.quantityAt db2 b e = Pr.quantityAt db b e) ∧
    db2.purchases = db.purchases.filter (fun p => p.id != pid) ∧
    db2.transfers = db.transfers ∧
    db2.assignments = db.assignments ∧
    db2.expenditures = db.expenditures := by
  unfold Pr.deletePurchase at h
  cases hf : db.purchases.find? (fun p => p.id == pid) with
  | none => rw [hf] at h; cases h
  | some p =>
    rw [hf] at h
    cases h
    exact ⟨rfl, fun b e => rfl, rfl, rfl, rfl, rfl⟩

/-- Witness for C9 at a concrete store. -/
theorem c9_witness :
    c9Db2.assets = c9Db.assets ∧ c9Db2.purchases = [] := by
  have h := c9_delete_purchase_no_balance_effect c9Db c9Db2 4 (by rfl)
  exact ⟨h.1, by rw [h.2.2.1]; rfl⟩

/-- Claim C10: createTransfer treats an absent source balance row as
quantity 0: with a positive quantity and distinct bases, an absent source
row fails with the same InsufficientBalance error as an existing but
insufficient row, in both backend variants; the error return means no
pending Transfer row is written. -/
theorem c10_absent_row_insufficient (f t e : Nat) (q : Int)
    (hq : 0 < q) (hft : f ≠ t) :
    (∀ db : Pr.Db, Pr.findAsset db f e = none →
      Pr.createTransfer db f t e q = Except.error ApiError.insufficientBalance) ∧
    (∀ (db : Pr.Db) (a : Pr.Asset), Pr.findAsset db f e = some a →
      a.quantity < q →
      Pr.createTransfer db f t e q = Except.error ApiError.insufficientBalance) ∧
    (∀ db : Mg.Db, Mg.findAsset db.assets f e = none →
      Mg.createTransfer db f t e q = Except.error ApiError.insufficientBalance) := by
  have hqn : ¬ q ≤ 0 := not_le.mpr hq
  have hbe : (f == t) = false := beq_eq_false_iff_ne.mpr hft
  refine ⟨?_, ?_, ?_⟩
  · intro db hnone
    unfold Pr.createTransfer
    rw [if_neg hqn, hbe, hnone]
    rfl
  · intro db a hsome hlt
    unfold Pr.createTransfer
    rw [if_neg hqn, hbe, hsome]
    simp [hlt]
  · intro db hnone
    unfold Mg.createTransfer
    rw [if_neg hqn, hbe, hnone]
    rfl

/-- Witness for C10 at concrete stores lacking the source row. -/
theorem c10_witness :
    Pr.createTransfer c10Db 1 2 1 5 = Except.error ApiError.insufficientBalance ∧
    Pr.createTransfer c1Start 2 1 1 5 = Except.error ApiError.insufficientBalance ∧
    Mg.createTransfer c10MDb 1 2 1 5 = Except.error ApiError.insufficientBalance := by
  have h := c10_absent_row_insufficient 1 2 1 5 (by decide) (by decide)
  have h2 := c10_absent_row_insufficient 2 1 1 5 (by decide) (by decide)
  refine ⟨h.1 c10Db (by rfl), ?_, h.2.2 c10MDb (by rfl)⟩
  exact h2.2.1 c1Start ⟨2, 2, 1, 0, 0⟩ (by rfl) (by decide)

/-- Claim C4 counterexample: on a transfer already in the terminal
`rejected` state, the cancel handler does not fail with InvalidState — its
guard only checks `completed` and `cancelled` — so the second terminal
transition succeeds and rewrites the status to `cancelled`. -/
theorem c4_counterexample :
    Pr.statusOf c4Db 3 = some TransferStatus.rejected ∧
    Pr.cancelTransfer c4Db 3 = Except.ok c4Db2 ∧
    Pr.statusOf c4Db2 3 = some TransferStatus.cancelled ∧
    c4Db2.assets = c4Db.assets := by
  exact ⟨rfl, rfl, rfl, rfl⟩

/-- Claim C4 as amended: a second approve, complete, or returnAssignment
on a terminal entity fails with InvalidState and leaves every balance
untouched, and cancel fails with InvalidState on a completed or cancelled
transfer; but cancel on a `rejected` transfer succeeds (moving it to
`cancelled` with no balance effect), and the Mongo reject handler answers
NotFound, not InvalidState, for a non-pending transfer.  Failing calls
return an error without a new state, so no balance effect is applied. -/
theorem c4_amended :
    (∀ (db : Pr.Db) (tid aid now : Nat) (t : Pr.Transfer),
      Pr.findTransfer db tid = some t → t.status ≠ .pending →
      Pr.approveTransfer db tid aid now = Except.error ApiError.invalidState) ∧
    (∀ (db : Pr.Db) (tid : Nat) (t : Pr.Transfer),
      Pr.findTransfer db tid = some t → t.status ≠ .approved →
      Pr.completeTransfer db tid = Except.error ApiError.invalidState) ∧
    (∀ (db : Pr.Db) (tid : Nat) (t : Pr.Transfer),
      Pr.findTransfer db tid = some t →
      t.status = .completed ∨ t.status = .cancelled →
      Pr.cancelTransfer db tid = Except.error ApiError.invalidState) ∧
    (∀ (db : Pr.Db) (tid : Nat) (t : Pr.Transfer),
      Pr.findTransfer db tid = some t → t.status = .rejected →
      ∃ db2, Pr.cancelTransfer db tid = Except.ok db2 ∧
        db2.assets = db.assets ∧ Pr.statusOf db2 tid = some .cancelled) ∧
    (∀ (db : Pr.Db) (gid : Nat) (g : Pr.Assignment),
      Pr.findAssignment db gid = some g → g.status ≠ .active →
      Pr.returnAssignment db gid = Except.error ApiError.invalidState) ∧
    (∀ (db : Mg.Db) (tid aid now : Nat),
      (∀ u ∈ db.transfers, u.id = tid → u.status ≠ .pending) →
      Mg.approveTransfer db tid aid now = Except.error ApiError.invalidState) ∧
    (∀ (db : Mg.Db) (tid rid now : Nat),
      (∀ u ∈ db.transfers, u.id = tid → u.status ≠ .pending) →
      Mg.rejectTransfer db tid rid now = Except.error ApiError.notFound) := by
  have hnonePending : ∀ (l : List Mg.Transfer) (tid : Nat),
      (∀ u ∈ l, u.id = tid → u.status ≠ .pending) →
      l.find? (fun t => t.id == tid && t.status == TransferStatus.pending) = none := by
    intro l tid hl
    rw [List.find?_eq_none]
    intro u hu
    simp only [Bool.and_eq_true, beq_iff_eq, not_and]
    intro hid
    exact hl u hu hid
  refine ⟨?_, ?_, ?_, ?_, ?_, ?_, ?_⟩
  · intro db tid aid now t hfind hst
    unfold Pr.approveTransfer
    rw [hfind]
    simp [hst]
  · intro db tid t hfind hst
    unfold Pr.completeTransfer
    rw [hfind]
    simp [hst]
  · intro db tid t hfind hst
    unfold Pr.cancelTransfer
    rw [hfind]
    rcases hst with h | h <;> simp [h]
  · intro db tid t hfind hst
    obtain ⟨tv, fb, tb, ev, qv, st, ab, aa⟩ := t
    simp only at hst
    subst hst
    unfold Pr.cancelTransfer
    rw [hfind]
    refine ⟨_, rfl, rfl, ?_⟩
    unfold Pr.statusOf Pr.findTransfer
    have := find?_updateFirst (p := fun u : Pr.Transfer => u.id == tid)
      (f := fun u => { u with status := TransferStatus.cancelled })
      (fun a => rfl) db.transfers
    simp only [this]
    rw [show db.transfers.find? (fun u => u.id == tid) = some ⟨tv, fb, tb, ev, qv, .rejected, ab, aa⟩ from hfind]
    rfl
  · intro db gid g hfind hst
    unfold Pr.returnAssignment
    rw [hfind]
    simp [hst]
  · intro db tid aid now hl
    unfold Mg.approveTransfer
    rw [hnonePending db.transfers tid hl]
  · intro db tid rid now hl
    unfold Mg.rejectTransfer
    rw [hnonePending db.transfers tid hl]

/-- Witness for C4 at concrete terminal states. -/
theorem c4_witness :
    Pr.completeTransfer c4Db 3 = Except.error ApiError.invalidState ∧
    Pr.approveTransfer c4Db 3 9 1 = Except.error ApiError.invalidState ∧
    Mg.rejectTransfer c3MDb2 7 9 6 = Except.error ApiError.notFound := by
  refine ⟨?_, ?_, ?_⟩
  · exact c4_amended.2.1 c4Db 3 ⟨3, 1, 2, 1, 10, .rejected, none, none⟩ (by rfl)
      (by decide)
  · exact c4_amended.1 c4Db 3 9 1 ⟨3, 1, 2, 1, 10, .rejected, none, none⟩ (by rfl)
      (by decide)
  · exact c4_amended.2.2.2.2.2.2 c3MDb2 7 9 6 (by decide)

/-- Claim C3 counterexample: in the Mongo variant (src/unnamed/part_007),
approving a pending 30-unit transfer moves the stock immediately — the
source balance drops from 100 to 70 and a 30-unit destination document
appears at approval time, refuting the claim that approval leaves every
Balance unchanged. -/
theorem c3_counterexample :
    Mg.statusOf c3MDb 7 = some TransferStatus.pending ∧
    Mg.quantityAt c3MDb 1 1 = 100 ∧
    Mg.quantityAt c3MDb 2 1 = 0 ∧
    Mg.approveTransfer c3MDb 7 9 5 = Except.ok c3MDb2 ∧
    Mg.statusOf c3MDb2 7 = some TransferStatus.approved ∧
    Mg.quantityAt c3MDb2 1 1 = 70 ∧
    Mg.quantityAt c3MDb2 2 1 = 30 := by
  exact ⟨by decide, by decide, by decide, rfl, by decide, by decide, by decide⟩

/-- Claim C3 as amended: in the Prisma variant
(src/backend/routes/transfers.js) approval is purely a gate — it records
approver and timestamp, sets status approved, and leaves the asset table
unchanged, with the stock moving only at completion, exactly as in
Scenario B — while in the Mongo variant (src/unnamed/part_007) the stock
moves at approval. -/
theorem c3_amended :
    (∀ (db db2 : Pr.Db) (tid aid now : Nat),
      Pr.approveTransfer db tid aid now = Except.ok db2 →
      db2.assets = db.assets ∧
      Pr.statusOf db2 tid = some TransferStatus.approved ∧
      ((Pr.findTransfer db2 tid).map fun u => (u.approvedById, u.approvedAt)) =
        some (some aid, some now)) ∧
    (Pr.createTransfer sbDb0 1 2 1 30 = Except.ok sbDb1 ∧
     Pr.balanceOf sbDb1 1 1 = some 100 ∧
     Pr.statusOf sbDb1 40 = some TransferStatus.pending ∧
     Pr.approveTransfer sbDb1 40 9 1 = Except.ok sbDb2 ∧
     Pr.balanceOf sbDb2 1 1 = some 100 ∧
     Pr.balanceOf sbDb2 2 1 = some 0 ∧
     Pr.completeTransfer sbDb2 40 = Except.ok sbDb3 ∧
     Pr.balanceOf sbDb3 1 1 = some 70 ∧
     Pr.balanceOf sbDb3 2 1 = some 30) := by
  constructor
  · intro db db2 tid aid now h
    unfold Pr.approveTransfer at h
    split at h
    · cases h
    · rename_i t hfind
      split at h
      · cases h
      · cases h
        unfold Pr.findTransfer at hfind
        have hu := find?_updateFirst (p := fun u : Pr.Transfer => u.id == tid)
          (f := fun u => { u with status := TransferStatus.approved, approvedById := some aid, approvedAt := some now })
          (fun a => rfl) db.transfers
        refine ⟨rfl, ?_, ?_⟩
        · unfold Pr.statusOf Pr.findTransfer
          simp only [hu, hfind]
          rfl
        · unfold Pr.findTransfer
          simp only [hu, hfind]
          rfl
  · refine ⟨rfl, by decide, by decide, rfl, by decide, by decide, rfl, by decide,
      by decide⟩

/-- Witness for C3: the general approve-frame fact applied to the Scenario
B store. -/
theorem c3_witness :
    sbDb2.assets = sbDb1.assets ∧
    Pr.statusOf sbDb2 40 = some TransferStatus.approved := by
  have h := c3_amended.1 sbDb1 sbDb2 40 9 1 (by rfl)
  exact ⟨h.1, h.2.1⟩

/-- Claim C7 counterexample: the Mongo assignment handler
(src/unnamed/part_014) accepts an assignment against a zero balance — it
looks up no balance, decrements nothing, and stores status "assigned"
rather than active — refuting the claim that createAssignment fails with
InsufficientBalance whenever the balance is below the quantity. -/
theorem c7_counterexample :
    Mg.quantityAt c7MDb 1 1 = 0 ∧
    Mg.createAssignment c7MDb 1 "Pvt. Jones" = Except.ok c7MDb2 ∧
    c7MDb2.assets = c7MDb.assets ∧
    (c7MDb2.assignments.map fun g => g.status) = ["assigned"] := by
  exact ⟨by decide, rfl, by decide, by decide⟩

/-- Claim C7 as amended: the Prisma variant
(src/backend/routes/assignments.js) behaves as claimed — insufficient
stock fails with InsufficientBalance, success decrements the asset
quantity by exactly the assigned quantity and stores an active
Assignment, and Scenario C round-trips the balance through return — while
the Mongo variant (src/unnamed/part_014) records the assignment with no
quantity, no balance check and no balance effect, under status
"assigned". -/
theorem c7_amended :
    (∀ (db : Pr.Db) (assetId : Nat) (q : Int) (who : String) (a : Pr.Asset),
      0 < q → Pr.findAssetById db assetId = some a →
      (a.quantity < q →
        Pr.createAssignment db assetId q who =
          Except.error ApiError.insufficientBalance) ∧
      (q ≤ a.quantity → ∃ db2,
        Pr.createAssignment db assetId q who = Except.ok db2 ∧
        Pr.assetQty db2 assetId = some (a.quantity - q) ∧
        Pr.assetClosing db2 assetId = some a.closingBalance ∧
        (db2.assignments.map fun g => (g.quantity, g.status)) =
          (db.assignments.map fun g => (g.quantity, g.status)) ++
            [(q, AssignmentStatus.active)])) ∧
    (∀ (db : Mg.Db) (assetId : Nat) (who : String), who ≠ "" →
      ∃ db2, Mg.createAssignment db assetId who = Except.ok db2 ∧
        db2.assets = db.assets ∧
        (db2.assignments.map fun g => g.status) =
          (db.assignments.map fun g => g.status) ++ ["assigned"]) ∧
    (Pr.balanceOf scDb0 1 1 = some 10 ∧
     Pr.createAssignment scDb0 1 10 "Pvt. Jones" = Except.ok scDb1 ∧
     Pr.balanceOf scDb1 1 1 = some 0 ∧
     Pr.returnAssignment scDb1 100 = Except.ok scDb2 ∧
     Pr.balanceOf scDb2 1 1 = some 10 ∧
     ((Pr.findAssignment scDb2 100).map fun g => g.status) =
       some AssignmentStatus.returned) := by
  refine ⟨?_, ?_, ?_⟩
  · intro db assetId q who a hq hfind
    have hqn : ¬ q ≤ 0 := not_le.mpr hq
    constructor
    · intro hlt
      unfold Pr.createAssignment
      rw [if_neg hqn, hfind]
      simp [hlt]
    · intro hle
      have hnlt : ¬ a.quantity < q := not_lt.mpr hle
      unfold Pr.createAssignment
      rw [if_neg hqn, hfind]
      simp only [hnlt, if_neg, if_false]
      refine ⟨_, rfl, ?_, ?_, by simp⟩
      · unfold Pr.assetQty Pr.findAssetById at *
        have hu := find?_updateFirst (p := fun x : Pr.Asset => x.id == assetId)
          (f := fun x => { x with quantity := x.quantity - q })
          (fun x => rfl) db.assets
        simp only [hu, hfind]
        rfl
      · unfold Pr.assetClosing Pr.findAssetById at *
        have hu := find?_updateFirst (p := fun x : Pr.Asset => x.id == assetId)
          (f := fun x => { x with quantity := x.quantity - q })
          (fun x => rfl) db.assets
        simp only [hu, hfind]
        rfl
  · intro db assetId who hwho
    unfold Mg.createAssignment
    rw [show (who == "") = false from beq_eq_false_iff_ne.mpr hwho]
    exact ⟨_, rfl, rfl, by simp⟩
  · exact ⟨by decide, rfl, by decide, rfl, by decide, by decide⟩

/-- Witness for C7: the insufficiency branch applied to the Scenario C
store with one unit too many requested. -/
theorem c7_witness :
    Pr.createAssignment scDb0 1 11 "Pvt. Jones" =
      Except.error ApiError.insufficientBalance := by
  exact (c7_amended.1 scDb0 1 11 "Pvt. Jones" ⟨1, 1, 1, 10, 10⟩ (by decide)
    (by rfl)).1 (by decide)

/-- Claim C8 counterexample: with a quantity Balance of 5 but a
closing_balance of 10, expending 6 succeeds — the handler guards and
decrements the closing_balance column, not the Balance — so the Balance is
neither protected by the InsufficientBalance check nor decremented. -/
theorem c8_counterexample :
    Pr.assetQty c8Db 1 = some 5 ∧
    Pr.assetClosing c8Db 1 = some 10 ∧
    Pr.recordExpenditure c8Db 1 6 "training" = Except.ok c8Db2 ∧
    Pr.assetQty c8Db2 1 = some 5 ∧
    Pr.assetClosing c8Db2 1 = some 4 := by
  exact ⟨by decide, by decide, rfl, by decide, by decide⟩

/-- Claim C8 as amended: recordExpenditure guards and mutates the asset's
closing_balance column: it fails with InsufficientBalance exactly when
closing_balance < quantity (changing nothing on failure), and on success
decrements closing_balance by the quantity, appends the Expenditure
record, and leaves the quantity Balance untouched; Scenario D holds as
stated when the closing balance is the 5. -/
theorem c8_amended :
    (∀ (db : Pr.Db) (assetId : Nat) (q : Int) (r : String) (a : Pr.Asset),
      0 < q → Pr.findAssetById db assetId = some a →
      (a.closingBalance < q →
        Pr.recordExpenditure db assetId q r =
          Except.error ApiError.insufficientBalance) ∧
      (q ≤ a.closingBalance → ∃ db2,
        Pr.recordExpenditure db assetId q r = Except.ok db2 ∧
        Pr.assetQty db2 assetId = some a.quantity ∧
        Pr.assetClosing db2 assetId = some (a.closingBalance - q) ∧
        (db2.expenditures.map fun x => x.quantity) =
          (db.expenditures.map fun x => x.quantity) ++ [q])) ∧
    (Pr.recordExpenditure sdDb 1 6 "training" =
      Except.error ApiError.insufficientBalance ∧
     Pr.balanceOf sdDb 1 1 = some 5) := by
  constructor
  · intro db assetId q r a hq hfind
    have hqn : ¬ q ≤ 0 := not_le.mpr hq
    constructor
    · intro hlt
      unfold Pr.recordExpenditure
      rw [if_neg hqn, hfind]
      simp [hlt]
    · intro hle
      have hnlt : ¬ a.closingBalance < q := not_lt.mpr hle
      unfold Pr.recordExpenditure
      rw [if_neg hqn, hfind]
      simp only [hnlt, if_neg, if_false]
      refine ⟨_, rfl, ?_, ?_, by simp⟩
      · unfold Pr.assetQty Pr.findAssetById at *
        have hu := find?_updateFirst (p := fun x : Pr.Asset => x.id == assetId)
          (f := fun x => { x with closingBalance := x.closingBalance - q })
          (fun x => rfl) db.assets
        simp only [hu, hfind]
        rfl
      · unfold Pr.assetClosing Pr.findAssetById at *
        have hu := find?_updateFirst (p := fun x : Pr.Asset => x.id == assetId)
          (f := fun x => { x with closingBalance := x.closingBalance - q })
          (fun x => rfl) db.assets
        simp only [hu, hfind]
        rfl
  · exact ⟨rfl, by decide⟩

/-- Witness for C8: the insufficiency branch applied to the Scenario D
store with one more unit requested. -/
theorem c8_witness :
    Pr.recordExpenditure sdDb 1 7 "training" =
      Except.error ApiError.insufficientBalance := by
  exact (c8_amended.1 sdDb 1 7 "training" ⟨1, 1, 1, 5, 5⟩ (by decide)
    (by rfl)).1 (by decide)

/-- Claim C6 counterexample: in the Prisma variant (src/unnamed/part_010),
a purchase for a pair with no asset row creates the Purchase record (with
the right totalAmount) but creates no Balance entry and loses the
increment — `updateMany` matches nothing — so the balance stays 0 instead
of becoming 100. -/
theorem c6_counterexample :
    Pr.findAsset c6Db 1 1 = none ∧
    Pr.recordPurchase c6Db 1 1 100 50 "Acme" = Except.ok c6Db2 ∧
    (c6Db2.purchases.map fun r => r.totalAmount) = [5000] ∧
    c6Db2.assets = [] ∧
    Pr.quantityAt c6Db2 1 1 = 0 ∧
    Pr.rowsAt c6Db2 1 1 = 0 := by
  exact ⟨by decide, rfl, by decide, by decide, by decide, by decide⟩

/-- Claim C6 as amended: both variants record totalAmount = quantity x
unitPrice; the Mongo variant (src/unnamed/part_011) increments the
balance, creating the entry lazily on the first purchase (Scenario A holds
there); the Prisma variant (src/unnamed/part_010) only increments already
existing rows — a purchase for a pair without a row leaves the balance
row count unchanged, so no entry is created and the stock increment is
dropped. -/
theorem c6_amended :
    (∀ (db : Pr.Db) (b e : Nat) (q p : Int) (s : String), 0 < q → 0 < p →
      ∃ db2, Pr.recordPurchase db b e q p s = Except.ok db2 ∧
        (db2.purchases.map fun r => r.totalAmount) =
          (db.purchases.map fun r => r.totalAmount) ++ [q * p] ∧
        Pr.quantityAt db2 b e =
          Pr.quantityAt db b e + (Pr.rowsAt db b e : Int) * q ∧
        Pr.rowsAt db2 b e = Pr.rowsAt db b e) ∧
    (∀ (db : Mg.Db) (b e : Nat) (q p : Int) (d : Nat), 0 < q → 0 < p →
      ∃ db2, Mg.createPurchase db b e q p d = Except.ok db2 ∧
        (db2.purchases.map fun r => r.totalAmount) =
          (db.purchases.map fun r => r.totalAmount) ++ [q * p] ∧
        Mg.quantityAt db2 b e = Mg.quantityAt db b e + q) ∧
    (Mg.quantityAt saMDb 1 1 = 0 ∧
     Mg.createPurchase saMDb 1 1 100 50 0 = Except.ok saMDb2 ∧
     Mg.quantityAt saMDb2 1 1 = 100 ∧
     (saMDb2.purchases.map fun r => r.totalAmount) = [5000]) := by
  refine ⟨?_, ?_, ?_⟩
  · intro db b e q p s hq hp
    have hg : ¬(q ≤ 0 ∨ p ≤ 0) := by
      rw [not_or]
      exact ⟨not_le.mpr hq, not_le.mpr hp⟩
    unfold Pr.recordPurchase
    rw [if_neg hg]
    refine ⟨_, rfl, by simp, ?_, ?_⟩
    · exact pairQty_adjust_same b e q q db.assets
    · exact pairRows_adjust b e b e q q db.assets
  · intro db b e q p d hq hp
    have hg : ¬(q ≤ 0 ∨ p ≤ 0) := by
      rw [not_or]
      exact ⟨not_le.mpr hq, not_le.mpr hp⟩
    unfold Mg.createPurchase
    rw [if_neg hg]
    cases hf : Mg.findAsset db.assets b e with
    | some a =>
      simp only [hf]
      refine ⟨_, rfl, by simp, ?_⟩
      exact mgPairQty_updateFirst b e q db.assets a hf
    | none =>
      simp only [hf]
      refine ⟨_, rfl, by simp, ?_⟩
      exact mgPairQty_append db.assets _ b e (by simp [Mg.matchesPair])
  · exact ⟨by decide, rfl, by decide, by decide⟩

/-- Witness for C6: the Prisma purchase fact applied to a store that does
have a row for the pair, where the increment lands. -/
theorem c6_witness :
    Pr.quantityAt (getOk (Pr.recordPurchase scDb0 1 1 3 7 "Acme") scDb0) 1 1 = 13 := by
  obtain ⟨db2, hok, _, hq, _⟩ :=
    c6_amended.1 scDb0 1 1 3 7 "Acme" (by decide) (by decide)
  rw [hok]
  show Pr.quantityAt db2 1 1 = 13
  rw [hq]
  decide

/-- Claim C2 counterexample: completing an approved 30-unit transfer whose
source balance is 0 does not fail with InsufficientBalance — there is no
re-check — it succeeds, drives the source balance to -30, and, the
destination pair having no row, creates none (the `updateMany` increment
is lost). -/
theorem c2_counterexample :
    Pr.statusOf c2Db 5 = some TransferStatus.approved ∧
    Pr.quantityAt c2Db 1 1 = 0 ∧
    Pr.rowsAt c2Db 2 1 = 0 ∧
    Pr.completeTransfer c2Db 5 = Except.ok c2Bad ∧
    Pr.quantityAt c2Bad 1 1 = -30 ∧
    Pr.rowsAt c2Bad 2 1 = 0 ∧
    Pr.statusOf c2Bad 5 = some TransferStatus.completed := by
  exact ⟨by decide, by decide, by decide, rfl, by decide, by decide, by decide⟩

/-- Claim C2 as amended: completeTransfer fails with InvalidState on a
transfer that is not approved; on an approved transfer (between distinct
bases) it always succeeds — with no InsufficientBalance re-check — and in
one transaction shifts every source-pair row down and every
destination-pair row up by the transfer quantity (so the pair balances
move by row-count times quantity), creates no row for an absent
destination pair, and sets status completed. -/
theorem c2_amended (db : Pr.Db) (tid : Nat) (t : Pr.Transfer)
    (hfind : Pr.findTransfer db tid = some t) :
    (t.status ≠ TransferStatus.approved →
      Pr.completeTransfer db tid = Except.error ApiError.invalidState) ∧
    (t.status = TransferStatus.approved → t.fromBaseId ≠ t.toBaseId →
      ∃ db2, Pr.completeTransfer db tid = Except.ok db2 ∧
        Pr.quantityAt db2 t.fromBaseId t.equipmentTypeId =
          Pr.quantityAt db t.fromBaseId t.equipmentTypeId -
            (Pr.rowsAt db t.fromBaseId t.equipmentTypeId : Int) * t.quantity ∧
        Pr.quantityAt db2 t.toBaseId t.equipmentTypeId =
          Pr.quantityAt db t.toBaseId t.equipmentTypeId +
            (Pr.rowsAt db t.toBaseId t.equipmentTypeId : Int) * t.quantity ∧
        Pr.rowsAt db2 t.fromBaseId t.equipmentTypeId =
          Pr.rowsAt db t.fromBaseId t.equipmentTypeId ∧
        Pr.rowsAt db2 t.toBaseId t.equipmentTypeId =
          Pr.rowsAt db t.toBaseId t.equipmentTypeId ∧
        Pr.statusOf db2 tid = some TransferStatus.completed) := by
  constructor
  · intro hst
    unfold Pr.completeTransfer
    rw [hfind]
    simp [hst]
  · intro hst hne
    unfold Pr.completeTransfer
    rw [hfind]
    simp only [hst, ne_eq, not_true_eq_false, if_false, Except.ok.injEq,
      exists_eq_left']
    have hpairne : ¬(t.toBaseId = t.fromBaseId ∧ t.equipmentTypeId = t.equipmentTypeId) :=
      fun hc => hne hc.1.symm
    refine ⟨?_, ?_, ?_, ?_, ?_⟩
    · show Pr.pairQty (Pr.adjustAssets (Pr.adjustAssets db.assets t.fromBaseId
        t.equipmentTypeId (-t.quantity) (-t.quantity)) t.toBaseId t.equipmentTypeId
        t.quantity t.quantity) t.fromBaseId t.equipmentTypeId = _
      rw [pairQty_adjust_ne _ _ _ _ _ _ _ hpairne,
        pairQty_adjust_same]
      unfold Pr.quantityAt Pr.rowsAt
      ring
    · show Pr.pairQty (Pr.adjustAssets (Pr.adjustAssets db.assets t.fromBaseId
        t.equipmentTypeId (-t.quantity) (-t.quantity)) t.toBaseId t.equipmentTypeId
        t.quantity t.quantity) t.toBaseId t.equipmentTypeId = _
      rw [pairQty_adjust_same,
        pairQty_adjust_ne _ _ _ _ _ _ _ (fun hc => hne hc.1)]
      show _ = Pr.pairQty db.assets t.toBaseId t.equipmentTypeId +
        (Pr.pairRows db.assets t.toBaseId t.equipmentTypeId : Int) * t.quantity
      rw [pairRows_adjust]
    · show Pr.pairRows (Pr.adjustAssets (Pr.adjustAssets db.assets t.fromBaseId
        t.equipmentTypeId (-t.quantity) (-t.quantity)) t.toBaseId t.equipmentTypeId
        t.quantity t.quantity) t.fromBaseId t.equipmentTypeId = _
      rw [pairRows_adjust, pairRows_adjust]
      rfl
    · show Pr.pairRows (Pr.adjustAssets (Pr.adjustAssets db.assets t.fromBaseId
        t.equipmentTypeId (-t.quantity) (-t.quantity)) t.toBaseId t.equipmentTypeId
        t.quantity t.quantity) t.toBaseId t.equipmentTypeId = _
      rw [pairRows_adjust, pairRows_adjust]
      rfl
    · unfold Pr.statusOf Pr.findTransfer
      unfold Pr.findTransfer at hfind
      have hu := find?_updateFirst (p := fun u : Pr.Transfer => u.id == tid)
        (f := fun u => { u with status := TransferStatus.completed })
        (fun a => rfl) db.transfers
      simp only [hu, hfind]
      rfl

/-- Witness for C2 at the Scenario B store: completing the approved
transfer moves 30 units from base 1 to base 2. -/
theorem c2_witness :
    Pr.quantityAt sbDb3 1 1 = 70 ∧ Pr.quantityAt sbDb3 2 1 = 30 := by
  have h := (c2_amended sbDb2 40 ⟨40, 1, 2, 1, 30, .approved, some 9, some 1⟩
    (by rfl)).2 (by decide) (by decide)
  obtain ⟨db2, hok, hfrom, hto, _, _, _⟩ := h
  have hdb : db2 = sbDb3 := by
    have h2 : (Except.ok db2 : Except ApiError Pr.Db) = Except.ok sbDb3 := by
      rw [← hok]; rfl
    injection h2
  subst hdb
  constructor
  · rw [show Pr.quantityAt sbDb3 1 1 = Pr.quantityAt sbDb2 1 1 -
      (Pr.rowsAt sbDb2 1 1 : Int) * 30 from hfrom]
    decide
  · rw [show Pr.quantityAt sbDb3 2 1 = Pr.quantityAt sbDb2 2 1 +
      (Pr.rowsAt sbDb2 2 1 : Int) * 30 from hto]
    decide

/-- Claim C5 counterexample: on a store with one 5-unit in-range
expenditure and one 100-unit asset row, getMetrics returns expended = 0
and net_movement = 0, while the spec formula (purchases + transfers_in -
transfers_out - expended over the journal in range) gives -5; and its
opening_balance is the asset row count 1, not a balance snapshot (the
backward-replay snapshot is 105). -/
theorem c5_counterexample :
    Mg.getMetrics c5MDb [1] (some 0) (some 20) =
      { opening_balance := 1, closing_balance := 1, net_movement := 0,
        purchases := 0, transfers_in := 0, transfers_out := 0,
        assigned := 0, expended := 0 } ∧
    Mg.expendedInRangeSpec c5MDb [1] (some 0) (some 20) = 5 ∧
    (Mg.getMetrics c5MDb [1] (some 0) (some 20)).net_movement ≠
      (Mg.getMetrics c5MDb [1] (some 0) (some 20)).purchases +
        (Mg.getMetrics c5MDb [1] (some 0) (some 20)).transfers_in -
        (Mg.getMetrics c5MDb [1] (some 0) (some 20)).transfers_out -
        Mg.expendedInRangeSpec c5MDb [1] (some 0) (some 20) ∧
    Mg.openingBalanceSpec c5MDb [1] (some 0) (some 20) = 105 ∧
    (Mg.getMetrics c5MDb [1] (some 0) (some 20)).opening_balance ≠
      Mg.openingBalanceSpec c5MDb [1] (some 0) (some 20) := by
  exact ⟨by decide, by decide, by decide, by decide, by decide⟩

/-- Claim C5 as amended: getMetrics hard-codes assigned = 0 and
expended = 0 (the expenditure journal is never queried), computes
net_movement = purchases + transfers_in - transfers_out over those terms
(transfers counted when status is approved with approvedAt in range),
satisfies closing_balance = opening_balance + net_movement, and returns as
opening_balance the count of asset rows at the authorized bases rather
than any balance snapshot. -/
theorem c5_amended (db : Mg.Db) (bases : List Nat) (s e : Option Nat) :
    (Mg.getMetrics db bases s e).expended = 0 ∧
    (Mg.getMetrics db bases s e).assigned = 0 ∧
    (Mg.getMetrics db bases s e).net_movement =
      (Mg.getMetrics db bases s e).purchases +
        (Mg.getMetrics db bases s e).transfers_in -
        (Mg.getMetrics db bases s e).transfers_out ∧
    (Mg.getMetrics db bases s e).closing_balance =
      (Mg.getMetrics db bases s e).opening_balance +
        (Mg.getMetrics db bases s e).net_movement ∧
    (Mg.getMetrics db bases s e).opening_balance =
      ((db.assets.filter fun a => bases.contains a.baseId).length : Int) := by
  exact ⟨rfl, rfl, rfl, rfl, rfl⟩

/-- Claim C1 counterexample: from a well-formed store with balances
100 and 0, the operation sequence createTransfer(1 to 2, 30), approve,
createAssignment(asset 1, 100), completeTransfer is reachable and leaves
Balance(base 1, type 1) = -30: completing an approved transfer applies its
decrement without re-checking the stock that the assignment removed in
the interim. -/
theorem c1_counterexample :
    Pr.BalancesNonNeg c1Start ∧
    Pr.ReachableFrom c1Start c1Db4 ∧
    ¬ Pr.BalancesNonNeg c1Db4 := by
  refine ⟨by decide, ?_, by decide⟩
  have s1 : Pr.Step c1Start c1Db1 := Pr.Step.transferRequest _ _ 1 2 1 30 rfl
  have s2 : Pr.Step c1Db1 c1Db2 := Pr.Step.approve _ _ 10 99 0 rfl
  have s3 : Pr.Step c1Db2 c1Db3 := Pr.Step.assign _ _ 1 100 "Pvt. Jones" rfl
  have s4 : Pr.Step c1Db3 c1Db4 := Pr.Step.complete _ _ 10 rfl
  exact Pr.ReachableFrom.tail _ _
    (Pr.ReachableFrom.tail _ _
      (Pr.ReachableFrom.tail _ _
        (Pr.ReachableFrom.tail _ _ Pr.ReachableFrom.refl s1) s2) s3) s4

/-!
Preservation lemmas for the well-formedness invariant, one per
operation. -/

theorem forall_updateFirst_of_pres {α : Type} {P : α → Prop} {p : α → Bool}
    {f : α → α} {l : List α} (hl : ∀ x ∈ l, P x)
    (hf : ∀ a ∈ l, P a → P (f a)) :
    ∀ x ∈ updateFirst p f l, P x := by
  intro x hx
  rcases mem_updateFirst hx with h | ⟨a, ha, rfl⟩
  · exact hl x h
  · exact hf a (List.mem_of_find?_eq_some ha) (hl a (List.mem_of_find?_eq_some ha))

theorem inv_assets_updateFirst {l : List Pr.Asset} {p : Pr.Asset → Bool}
    {f : Pr.Asset → Pr.Asset}
    (hA : ∀ a ∈ l, 0 ≤ a.quantity ∧ 0 ≤ a.closingBalance)
    (hf : ∀ a, l.find? p = some a → 0 ≤ (f a).quantity ∧ 0 ≤ (f a).closingBalance) :
    ∀ x ∈ updateFirst p f l, 0 ≤ x.quantity ∧ 0 ≤ x.closingBalance := by
  intro x hx
  rcases mem_updateFirst hx with h | ⟨a, ha, rfl⟩
  · exact hA x h
  · exact hf a ha

theorem inv_assets_adjust_nonneg {l : List Pr.Asset} {b e : Nat} {dq dcb : Int}
    (hA : ∀ a ∈ l, 0 ≤ a.quantity ∧ 0 ≤ a.closingBalance)
    (hdq : 0 ≤ dq) (hdcb : 0 ≤ dcb) :
    ∀ x ∈ Pr.adjustAssets l b e dq dcb, 0 ≤ x.quantity ∧ 0 ≤ x.closingBalance := by
  intro x hx
  unfold Pr.adjustAssets at hx
  rcases List.mem_map.mp hx with ⟨a, ha, rfl⟩
  by_cases hk : Pr.pairKey b e a = true
  · simp only [hk, if_pos]
    exact ⟨add_nonneg (hA a ha).1 hdq, add_nonneg (hA a ha).2 hdcb⟩
  · rw [if_neg hk]
    exact hA a ha

theorem inv_assets_complete {l : List Pr.Asset} {t : Pr.Transfer}
    (hA : ∀ a ∈ l, 0 ≤ a.quantity ∧ 0 ≤ a.closingBalance)
    (hq : 0 ≤ t.quantity)
    (hsuff : ∀ a ∈ l, a.baseId = t.fromBaseId →
      a.equipmentTypeId = t.equipmentTypeId →
      t.quantity ≤ a.quantity ∧ t.quantity ≤ a.closingBalance) :
    ∀ x ∈ Pr.adjustAssets
        (Pr.adjustAssets l t.fromBaseId t.equipmentTypeId (-t.quantity) (-t.quantity))
        t.toBaseId t.equipmentTypeId t.quantity t.quantity,
      0 ≤ x.quantity ∧ 0 ≤ x.closingBalance := by
  have h1 : ∀ y ∈ Pr.adjustAssets l t.fromBaseId t.equipmentTypeId
      (-t.quantity) (-t.quantity), 0 ≤ y.quantity ∧ 0 ≤ y.closingBalance := by
    intro y hy
    unfold Pr.adjustAssets at hy
    rcases List.mem_map.mp hy with ⟨a, ha, rfl⟩
    by_cases hk : Pr.pairKey t.fromBaseId t.equipmentTypeId a = true
    · simp only [hk, if_pos]
      have hk2 := hk
      unfold Pr.pairKey at hk2
      simp only [Bool.and_eq_true, beq_iff_eq] at hk2
      have hs := hsuff a ha hk2.1 hk2.2
      exact ⟨by linarith [hs.1], by linarith [hs.2]⟩
    · rw [if_neg hk]
      exact hA a ha
  exact inv_assets_adjust_nonneg h1 hq hq

theorem invPreserved_purchase {db db2 : Pr.Db} {b e : Nat} {q p : Int}
    {s : String} (hI : Pr.Inv db)
    (h : Pr.recordPurchase db b e q p s = Except.ok db2) : Pr.Inv db2 := by
  obtain ⟨hA, hG, hT⟩ := hI
  unfold Pr.recordPurchase at h
  split at h
  · cases h
  · rename_i hg
    cases h
    rw [not_or] at hg
    have hq : 0 ≤ q := le_of_lt (not_le.mp hg.1)
    exact ⟨inv_assets_adjust_nonneg hA hq hq, hG, hT⟩

theorem invPreserved_createTransfer {db db2 : Pr.Db} {f t e : Nat} {q : Int}
    (hI : Pr.Inv db) (h : Pr.createTransfer db f t e q = Except.ok db2) :
    Pr.Inv db2 := by
  obtain ⟨hA, hG, hT⟩ := hI
  unfold Pr.createTransfer at h
  split at h
  · cases h
  · rename_i hq
    split at h
    · cases h
    · split at h
      · cases h
      · split at h
        · cases h
        · cases h
          refine ⟨hA, hG, ?_⟩
          intro u hu
          rcases List.mem_append.mp hu with h1 | h2
          · exact hT u h1
          · rcases List.mem_singleton.mp h2 with rfl
            exact le_of_lt (not_le.mp hq)

theorem invPreserved_approve {db db2 : Pr.Db} {tid aid now : Nat}
    (hI : Pr.Inv db) (h : Pr.approveTransfer db tid aid now = Except.ok db2) :
    Pr.Inv db2 := by
  obtain ⟨hA, hG, hT⟩ := hI
  unfold Pr.approveTransfer at h
  split at h
  · cases h
  · split at h
    · cases h
    · cases h
      exact ⟨hA, hG, forall_updateFirst_of_pres hT fun a _ ha => ha⟩

theorem invPreserved_cancel {db db2 : Pr.Db} {tid : Nat}
    (hI : Pr.Inv db) (h : Pr.cancelTransfer db tid = Except.ok db2) :
    Pr.Inv db2 := by
  obtain ⟨hA, hG, hT⟩ := hI
  unfold Pr.cancelTransfer at h
  split at h
  · cases h
  · split at h
    · cases h
    · cases h
      exact ⟨hA, hG, forall_updateFirst_of_pres hT fun a _ ha => ha⟩

theorem invPreserved_assign {db db2 : Pr.Db} {assetId : Nat} {q : Int}
    {who : String} (hI : Pr.Inv db)
    (h : Pr.createAssignment db assetId q who = Except.ok db2) : Pr.Inv db2 := by
  obtain ⟨hA, hG, hT⟩ := hI
  unfold Pr.createAssignment at h
  split at h
  · cases h
  · rename_i hq
    split at h
    · cases h
    · rename_i asset hfa
      split at h
      · cases h
      · rename_i hlt
        cases h
        refine ⟨?_, ?_, hT⟩
        · refine inv_assets_updateFirst hA ?_
          intro a ha
          unfold Pr.findAssetById at hfa
          rw [hfa] at ha
          rcases Option.some.injEq _ _ ▸ ha with rfl
          have hmem := List.mem_of_find?_eq_some hfa
          exact ⟨by have := not_lt.mp hlt; simpa using by linarith,
            (hA asset hmem).2⟩
        · intro g hg
          rcases List.mem_append.mp hg with h1 | h2
          · exact hG g h1
          · rcases List.mem_singleton.mp h2 with rfl
            exact le_of_lt (not_le.mp hq)

theorem invPreserved_return {db db2 : Pr.Db} {gid : Nat}
    (hI : Pr.Inv db) (h : Pr.returnAssignment db gid = Except.ok db2) :
    Pr.Inv db2 := by
  obtain ⟨hA, hG, hT⟩ := hI
  unfold Pr.returnAssignment at h
  split at h
  · cases h
  · rename_i g hfg
    split at h
    · cases h
    · split at h
      · cases h
      · cases h
        have hgq : 0 ≤ g.quantity :=
          hG g (List.mem_of_find?_eq_some hfg)
        refine ⟨?_, forall_updateFirst_of_pres hG fun a _ ha => ha, hT⟩
        refine inv_assets_updateFirst hA ?_
        intro a ha
        have hmem := List.mem_of_find?_eq_some ha
        exact ⟨add_nonneg (hA a hmem).1 hgq, (hA a hmem).2⟩

theorem invPreserved_expend {db db2 : Pr.Db} {assetId : Nat} {q : Int}
    {r : String} (hI : Pr.Inv db)
    (h : Pr.recordExpenditure db assetId q r = Except.ok db2) : Pr.Inv db2 := by
  obtain ⟨hA, hG, hT⟩ := hI
  unfold Pr.recordExpenditure at h
  split at h
  · cases h
  · split at h
    · cases h
    · rename_i asset hfa
      split at h
      · cases h
      · rename_i hlt
        cases h
        refine ⟨?_, hG, hT⟩
        refine inv_assets_updateFirst hA ?_
        intro a ha
        unfold Pr.findAssetById at hfa
        rw [hfa] at ha
        rcases Option.some.injEq _ _ ▸ ha with rfl
        have hmem := List.mem_of_find?_eq_some hfa
        exact ⟨(hA asset hmem).1,
          by have := not_lt.mp hlt; simpa using by linarith⟩

theorem invPreserved_complete {db db2 : Pr.Db} {tid : Nat} {t : Pr.Transfer}
    (hI : Pr.Inv db) (hfind : Pr.findTransfer db tid = some t)
    (hsuff : ∀ a ∈ db.assets, a.baseId = t.fromBaseId →
      a.equipmentTypeId = t.equipmentTypeId →
      t.quantity ≤ a.quantity ∧ t.quantity ≤ a.closingBalance)
    (h : Pr.completeTransfer db tid = Except.ok db2) : Pr.Inv db2 := by
  obtain ⟨hA, hG, hT⟩ := hI
  unfold Pr.completeTransfer at h
  split at h
  · cases h
  · rename_i t2 hfind2
    split at h
    · cases h
    · cases h
      rw [hfind2] at hfind
      injection hfind with ht
      subst ht
      have hq : 0 ≤ t2.quantity := hT t2 (List.mem_of_find?_eq_some hfind2)
      exact ⟨inv_assets_complete hA hq hsuff, hG,
        forall_updateFirst_of_pres hT fun a _ ha => ha⟩

/-- Claim C1 as amended: the invariant "every Balance.quantity is
non-negative" is preserved by recordPurchase, createTransfer,
approveTransfer, cancelTransfer, createAssignment, returnAssignment, and
recordExpenditure — but completeTransfer preserves it only under the
extra premise that the source rows still cover the transfer quantity at
completion time; without that premise the sequence of the counterexample
drives a balance negative. -/
theorem c1_amended :
    (∀ db : Pr.Db, Pr.Inv db → Pr.BalancesNonNeg db) ∧
    (∀ (db db2 : Pr.Db) (b e : Nat) (q p : Int) (s : String), Pr.Inv db →
      Pr.recordPurchase db b e q p s = Except.ok db2 → Pr.Inv db2) ∧
    (∀ (db db2 : Pr.Db) (f t e : Nat) (q : Int), Pr.Inv db →
      Pr.createTransfer db f t e q = Except.ok db2 → Pr.Inv db2) ∧
    (∀ (db db2 : Pr.Db) (tid aid now : Nat), Pr.Inv db →
      Pr.approveTransfer db tid aid now = Except.ok db2 → Pr.Inv db2) ∧
    (∀ (db db2 : Pr.Db) (tid : Nat), Pr.Inv db →
      Pr.cancelTransfer db tid = Except.ok db2 → Pr.Inv db2) ∧
    (∀ (db db2 : Pr.Db) (assetId : Nat) (q : Int) (who : String), Pr.Inv db →
      Pr.createAssignment db assetId q who = Except.ok db2 → Pr.Inv db2) ∧
    (∀ (db db2 : Pr.Db) (gid : Nat), Pr.Inv db →
      Pr.returnAssignment db gid = Except.ok db2 → Pr.Inv db2) ∧
    (∀ (db db2 : Pr.Db) (assetId : Nat) (q : Int) (r : String), Pr.Inv db →
      Pr.recordExpenditure db assetId q r = Except.ok db2 → Pr.Inv db2) ∧
    (∀ (db db2 : Pr.Db) (tid : Nat) (t : Pr.Transfer), Pr.Inv db →
      Pr.findTransfer db tid = some t →
      (∀ a ∈ db.assets, a.baseId = t.fromBaseId →
        a.equipmentTypeId = t.equipmentTypeId →
        t.quantity ≤ a.quantity ∧ t.quantity ≤ a.closingBalance) →
      Pr.completeTransfer db tid = Except.ok db2 → Pr.Inv db2) := by
  refine ⟨?_, ?_, ?_, ?_, ?_, ?_, ?_, ?_, ?_⟩
  · intro db hI a ha
    exact (hI.1 a ha).1
  · intro db db2 b e q p s hI h
    exact invPreserved_purchase hI h
  · intro db db2 f t e q hI h
    exact invPreserved_createTransfer hI h
  · intro db db2 tid aid now hI h
    exact invPreserved_approve hI h
  · intro db db2 tid hI h
    exact invPreserved_cancel hI h
  · intro db db2 assetId q who hI h
    exact invPreserved_assign hI h
  · intro db db2 gid hI h
    exact invPreserved_return hI h
  · intro db db2 assetId q r hI h
    exact invPreserved_expend hI h
  · intro db db2 tid t hI hfind hsuff h
    exact invPreserved_complete hI hfind hsuff h

/-- Witness for C1: the preservation branches applied along the first two
steps of the counterexample run, where the invariant indeed still holds. -/
theorem c1_witness : Pr.Inv c1Db2 ∧ Pr.BalancesNonNeg c1Db2 := by
  have h0 : Pr.Inv c1Start := by decide
  have h1 : Pr.Inv c1Db1 :=
    c1_amended.2.2.1 c1Start c1Db1 1 2 1 30 h0 (by rfl)
  have h2 : Pr.Inv c1Db2 :=
    c1_amended.2.2.2.1 c1Db1 c1Db2 10 99 0 h1 (by rfl)
  exact ⟨h2, c1_amended.1 c1Db2 h2⟩

end MAMS
